import Mathlib

/-!
Shallow embedding of `gurt.py`, a small interactive terminal toy
(gradient banner, ASCII art, system-info reporter, surprise URL opener,
number-guessing game, menu loop), together with theorems about the
embedded operations.

Modelling conventions:
* Python machine-independent `int` arithmetic is `ℤ`/`ℕ`.
* Python float true-division in `gradient_text` is modelled by exact
  rational division (`ℚ`); the builtin `int(...)` conversion (truncation
  toward zero) is `pyTrunc`.
* Side-effecting probes (subprocess output, file reads, the browser
  opener) are modelled by environment records carrying each probe's
  outcome; a raised-and-uncaught exception is an explicit flag.
* Printed lines and user-visible events are inductive types, each with a
  `render` function producing the exact text the Python code prints.
-/

namespace Gurt

/-- ANSI control sequence introducer, `CSI = "\x1b["`. -/
def CSI : String := "\x1b["

/-- ANSI reset sequence, `RESET = CSI + "0m"`. -/
def RESET : String := CSI ++ "0m"

/-- ANSI bold sequence, `BOLD = CSI + "1m"`. -/
def BOLD : String := CSI ++ "1m"

/-- `fg_rgb(r, g, b)`: 24-bit foreground color escape sequence. -/
def fg_rgb (r g b : ℤ) : String :=
  CSI ++ "38;2;" ++ toString r ++ ";" ++ toString g ++ ";" ++ toString b ++ "m"

/-- An RGB color triple; the Python code passes these as 3-tuples of ints. -/
structure RGB where
  r : ℤ
  g : ℤ
  b : ℤ
deriving DecidableEq, Repr

/-- The channels of a color lie in the byte range 0..255. -/
def RGB.inRange (c : RGB) : Prop :=
  0 ≤ c.r ∧ c.r ≤ 255 ∧ 0 ≤ c.g ∧ c.g ≤ 255 ∧ 0 ≤ c.b ∧ c.b ≤ 255

/-- Python `int(q)` on a real value: truncation toward zero. -/
def pyTrunc (q : ℚ) : ℤ :=
  if 0 ≤ q then ⌊q⌋ else ⌈q⌉

/-- One channel of `gradient_text`'s loop body:
`int(start + (end - start) * (i / n))`, with Python's float true-division
modelled as exact rational division. -/
def gradChannel (s e : ℤ) (i n : ℕ) : ℤ :=
  pyTrunc ((s : ℚ) + ((e : ℚ) - (s : ℚ)) * ((i : ℚ) / (n : ℚ)))

/-- The interpolation divisor `n = max(1, len(text) - 1)`. -/
def gradDivisor (text : List Char) : ℕ :=
  max 1 (text.length - 1)

/-- The color assigned to character index `i` by `gradient_text`. -/
def gradColor (s e : RGB) (i n : ℕ) : RGB :=
  ⟨gradChannel s.r e.r i n, gradChannel s.g e.g i n, gradChannel s.b e.b i n⟩

/-- The per-position colors `gradient_text` assigns over a text. -/
def gradColors (text : List Char) (s e : RGB) : List RGB :=
  (List.range text.length).map fun i => gradColor s e i (gradDivisor text)

/-- `gradient_text(text, start, end)`: each character prefixed by its color
escape, concatenated, with a trailing RESET. -/
def gradient_text (text : List Char) (s e : RGB) : String :=
  String.join
    ((text.enum.map fun p =>
        fg_rgb (gradColor s e p.1 (gradDivisor text)).r
          (gradColor s e p.1 (gradDivisor text)).g
          (gradColor s e p.1 (gradDivisor text)).b ++ String.singleton p.2)
      ++ [RESET])

lemma pyTrunc_intCast (m : ℤ) : pyTrunc (m : ℚ) = m := by
  unfold pyTrunc
  split <;> simp

lemma pyTrunc_eq_floor (q : ℚ) (h : 0 ≤ q) : pyTrunc q = ⌊q⌋ := by
  unfold pyTrunc
  exact if_pos h

lemma pyTrunc_mono_of_nonneg (a b : ℚ) (ha : 0 ≤ a) (hab : a ≤ b) :
    pyTrunc a ≤ pyTrunc b := by
  rw [pyTrunc_eq_floor a ha, pyTrunc_eq_floor b (ha.trans hab)]
  exact Int.floor_le_floor hab

lemma gradChannel_zero (s e : ℤ) (n : ℕ) : gradChannel s e 0 n = s := by
  simp [gradChannel, pyTrunc_intCast]

lemma gradChannel_self (s e : ℤ) (n : ℕ) (hn : 0 < n) : gradChannel s e n n = e := by
  have hne : ((n : ℚ)) ≠ 0 := by exact_mod_cast hn.ne'
  have h1 : ((n : ℚ) / (n : ℚ)) = 1 := div_self hne
  have h2 : (s : ℚ) + ((e : ℚ) - (s : ℚ)) * 1 = ((e : ℤ) : ℚ) := by ring
  rw [gradChannel, h1, h2, pyTrunc_intCast]

lemma gradColor_zero (s e : RGB) (n : ℕ) : gradColor s e 0 n = s := by
  obtain ⟨sr, sg, sb⟩ := s
  simp [gradColor, gradChannel_zero]

lemma gradColor_self (s e : RGB) (n : ℕ) (hn : 0 < n) : gradColor s e n n = e := by
  obtain ⟨er, eg, eb⟩ := e
  simp [gradColor, gradChannel_self _ _ _ hn]

lemma gradChannel_mono (s e : ℤ) (hs : 0 ≤ s) (he : 0 ≤ e) (n : ℕ) (hn : 0 < n)
    (i j : ℕ) (hij : i ≤ j) (hjn : j ≤ n) :
    (s < e → gradChannel s e i n ≤ gradChannel s e j n)
    ∧ (e < s → gradChannel s e j n ≤ gradChannel s e i n) := by
  have hnq : (0 : ℚ) < (n : ℚ) := by exact_mod_cast hn
  have hij' : (i : ℚ) ≤ (j : ℚ) := by exact_mod_cast hij
  have hdiv : (i : ℚ) / (n : ℚ) ≤ (j : ℚ) / (n : ℚ) := by gcongr
  have hi0 : (0 : ℚ) ≤ (i : ℚ) / (n : ℚ) := div_nonneg (by positivity) hnq.le
  have hj1 : (j : ℚ) / (n : ℚ) ≤ 1 := by
    rw [div_le_one hnq]
    exact_mod_cast hjn
  have hsq : (0 : ℚ) ≤ (s : ℚ) := by exact_mod_cast hs
  have heq : (0 : ℚ) ≤ (e : ℚ) := by exact_mod_cast he
  constructor
  · intro hlt
    have hd : (0 : ℚ) ≤ (e : ℚ) - (s : ℚ) := by
      have : (s : ℚ) ≤ (e : ℚ) := by exact_mod_cast hlt.le
      linarith
    have hmono : (s : ℚ) + ((e : ℚ) - (s : ℚ)) * ((i : ℚ) / (n : ℚ))
        ≤ (s : ℚ) + ((e : ℚ) - (s : ℚ)) * ((j : ℚ) / (n : ℚ)) :=
      add_le_add_left (mul_le_mul_of_nonneg_left hdiv hd) _
    have hpos : (0 : ℚ) ≤ (s : ℚ) + ((e : ℚ) - (s : ℚ)) * ((i : ℚ) / (n : ℚ)) :=
      add_nonneg hsq (mul_nonneg hd hi0)
    exact pyTrunc_mono_of_nonneg _ _ hpos hmono
  · intro hlt
    have hd : (e : ℚ) - (s : ℚ) ≤ 0 := by
      have : (e : ℚ) ≤ (s : ℚ) := by exact_mod_cast hlt.le
      linarith
    have hmono : (s : ℚ) + ((e : ℚ) - (s : ℚ)) * ((j : ℚ) / (n : ℚ))
        ≤ (s : ℚ) + ((e : ℚ) - (s : ℚ)) * ((i : ℚ) / (n : ℚ)) :=
      add_le_add_left (mul_le_mul_of_nonpos_left hdiv hd) _
    have hlow : ((e : ℚ) - (s : ℚ)) * 1 ≤ ((e : ℚ) - (s : ℚ)) * ((j : ℚ) / (n : ℚ)) :=
      mul_le_mul_of_nonpos_left hj1 hd
    have hpos : (0 : ℚ) ≤ (s : ℚ) + ((e : ℚ) - (s : ℚ)) * ((j : ℚ) / (n : ℚ)) := by
      have he' : (s : ℚ) + ((e : ℚ) - (s : ℚ)) * 1 = (e : ℚ) := by ring
      linarith
    exact pyTrunc_mono_of_nonneg _ _ hpos hmono

/-! ### Python string primitives

Python strings are modelled as `List Char`, so that every operation is
structurally recursive and evaluates inside the kernel. Only the ASCII
behaviour of `str.strip`, `str.lower` and `int(str)` is modelled; every
input the program's claims mention is ASCII. -/

/-- The ASCII whitespace characters `str.strip()` removes. -/
def pyIsSpace (c : Char) : Bool :=
  c = ' ' || c = '\t' || c = '\n' || c = '\x0d' || c = '\x0b' || c = '\x0c'

/-- Python `str.strip()`: drop leading and trailing whitespace. -/
def pyStrip (s : List Char) : List Char :=
  ((s.dropWhile pyIsSpace).reverse.dropWhile pyIsSpace).reverse

/-- Lowercase one ASCII character. -/
def pyCharLower (c : Char) : Char :=
  if 'A' ≤ c ∧ c ≤ 'Z' then Char.ofNat (c.toNat + 32) else c

/-- Python `str.lower()` (ASCII). -/
def pyToLower (s : List Char) : List Char :=
  s.map pyCharLower

/-! ### Guessing game (`guess_number`) -/

/-- The quit tokens checked by both the game and the menu:
`("q", "quit", "exit")`. -/
def QUIT_TOKENS : List (List Char) := [['q'], ['q', 'u', 'i', 't'], ['e', 'x', 'i', 't']]

/-- Accumulate a decimal digit list into a natural number. -/
def digitsToNat (cs : List Char) : ℕ :=
  cs.foldl (fun a c => a * 10 + (c.toNat - 48)) 0

/-- Python builtin `int(str)` parsing: strip whitespace, optional sign,
then a non-empty run of decimal digits; anything else raises `ValueError`
(`none`). Digit-group underscores, which no input of interest uses, are
not modelled. -/
def pyParseInt (str : List Char) : Option ℤ :=
  match pyStrip str with
  | '-' :: ds =>
      if ds ≠ [] ∧ ds.all (fun c => c.isDigit) then some (-(digitsToNat ds : ℤ)) else none
  | '+' :: ds =>
      if ds ≠ [] ∧ ds.all (fun c => c.isDigit) then some ((digitsToNat ds : ℤ)) else none
  | ds =>
      if ds ≠ [] ∧ ds.all (fun c => c.isDigit) then some ((digitsToNat ds : ℤ)) else none

/-- The game's state machine states. -/
inductive GameState where
  | awaitingGuess
  | won
  | aborted
deriving DecidableEq, Repr

/-- One user-visible event per processed input line. -/
inductive GameEvent where
  | higher
  | lower
  | won (secret : ℤ) (attempts : ℕ)
  | retry
  | aborted
deriving DecidableEq, Repr

/-- The exact text each game event prints. -/
def renderGameEvent : GameEvent → String
  | GameEvent.higher => "Higher."
  | GameEvent.lower => "Lower."
  | GameEvent.won s a => "Nice! " ++ toString s ++ " in " ++ toString a ++ " attempts."
  | GameEvent.retry => "Type a number or 'q' to quit."
  | GameEvent.aborted => "Aborted."

/-- One iteration of `guess_number`'s loop body on an input line:
strip; quit-token check on the lowercased text; else `int(s)` (a
`ValueError` prints the retry instruction and leaves everything
unchanged); else increment `attempts` and compare to `secret`. -/
def guessStep (secret : ℤ) (attempts : ℕ) (line : List Char) : GameState × ℕ × GameEvent :=
  let s := pyStrip line
  if pyToLower s ∈ QUIT_TOKENS then
    (GameState.aborted, attempts, GameEvent.aborted)
  else
    match pyParseInt s with
    | none => (GameState.awaitingGuess, attempts, GameEvent.retry)
    | some guess =>
        let attempts' := attempts + 1
        if guess < secret then (GameState.awaitingGuess, attempts', GameEvent.higher)
        else if secret < guess then (GameState.awaitingGuess, attempts', GameEvent.lower)
        else (GameState.won, attempts', GameEvent.won secret attempts')

/-- How a run of `guess_number` ends: in a terminal state, or with stdin
exhausted (in Python `input()` would then raise an uncaught `EOFError`). -/
inductive GameResult where
  | finished (state : GameState) (attempts : ℕ)
  | inputExhausted (attempts : ℕ)
deriving DecidableEq, Repr

/-- Run `guess_number`'s loop over a list of input lines, returning the
events printed, the result, and the input lines left unconsumed. -/
def guessRun (secret : ℤ) (attempts : ℕ) :
    List (List Char) → List GameEvent × GameResult × List (List Char)
  | [] => ([], GameResult.inputExhausted attempts, [])
  | line :: rest =>
      match guessStep secret attempts line with
      | (GameState.awaitingGuess, a, ev) =>
          let r := guessRun secret a rest
          (ev :: r.1, r.2.1, r.2.2)
      | (st, a, ev) => ([ev], GameResult.finished st a, rest)

/-! ### System info reporter (`show_system_info`) -/

/-- The probe outcomes available to one run of `show_system_info`.
`none` for a subprocess means `check_output` raised; `none` for
`procUptimeSecs` means `/proc/uptime` was unreadable or unparsable;
`none` for `disk` means `shutil.disk_usage(".")` raised. The first line
of `/proc/uptime` is a non-negative decimal of seconds; its integer part
(modelled here) determines every printed field, since
`int(secs // 60) = floor(secs) / 60` for non-negative `secs`. -/
structure SysEnv where
  platformSystem : List Char
  platformRelease : List Char
  platformMachine : List Char
  pythonVersion : List Char
  unameOut : Option (List Char)
  uptimeOut : Option (List Char)
  procUptimeSecs : Option ℕ
  disk : Option (ℕ × ℕ × ℕ)

/-- `run_cmd_output(cmd)`: the stripped subprocess output, or `""` if
`check_output` raised any exception. -/
def run_cmd_output (out : Option (List Char)) : List Char :=
  match out with
  | some s => pyStrip s
  | none => []

/-- One line printed by `show_system_info`. -/
inductive InfoLine where
  | header
  | platform (sys rel mach : List Char)
  | python (v : List Char)
  | uname (s : List Char)
  | uptimePretty (s : List Char)
  | uptimeFallback (days hrs24 mins60 : ℕ)
  | disk (total used free : ℕ)
  | blank
deriving DecidableEq, Repr

/-- Is this line one of the two uptime lines? -/
def isUptimeLine : InfoLine → Bool
  | InfoLine.uptimePretty _ => true
  | InfoLine.uptimeFallback _ _ _ => true
  | _ => false

/-- Round `num / den` to the nearest integer, ties to even (the rounding
Python's `format` applies for `:.2f`). -/
def round2HalfEven (num den : ℕ) : ℕ :=
  let q := num / den
  let r := num % den
  if 2 * r < den then q
  else if den < 2 * r then q + 1
  else if q % 2 = 0 then q else q + 1

/-- The `fmt` helper inside `show_system_info`: `f"{n/1024**3:.2f} GiB"`,
with the float quotient modelled as the exact rational rounded half-even
to two decimals. -/
def fmtGiB (n : ℕ) : String :=
  let c := round2HalfEven (n * 100) (1024 ^ 3)
  let frac := c % 100
  toString (c / 100) ++ "." ++ (if frac < 10 then "0" else "") ++ toString frac ++ " GiB"

/-- The exact text each info line prints (a `print` with several
arguments joins them with single spaces). -/
def renderInfoLine : InfoLine → String
  | InfoLine.header => BOLD ++ "System Info" ++ RESET
  | InfoLine.platform sys rel mach =>
      "Platform:  " ++ String.mk sys ++ " " ++ String.mk rel ++ " " ++ String.mk mach
  | InfoLine.python v => "Python:    " ++ String.mk v
  | InfoLine.uname s => "Uname:     " ++ String.mk s
  | InfoLine.uptimePretty s => "Uptime:    " ++ String.mk s
  | InfoLine.uptimeFallback days hrs24 mins60 =>
      "Uptime:   " ++ toString days ++ "d " ++ toString hrs24 ++ "h " ++ toString mins60 ++ "m"
  | InfoLine.disk total used free =>
      "Disk (cwd): " ++ fmtGiB total ++ " used: " ++ fmtGiB used ++ " free: " ++ fmtGiB free
  | InfoLine.blank => ""

/-- The three unconditional opening lines (header, platform, python). -/
def sysBase (env : SysEnv) : List InfoLine :=
  [InfoLine.header,
   InfoLine.platform env.platformSystem env.platformRelease env.platformMachine,
   InfoLine.python env.pythonVersion]

/-- The uname line, printed only when `run_cmd_output` returned
non-empty text. -/
def sysUname (env : SysEnv) : List InfoLine :=
  let uname := run_cmd_output env.unameOut
  if uname ≠ [] then [InfoLine.uname uname] else []

/-- The uptime line: prefer `uptime -p` output; else fall back to
parsing `/proc/uptime` into days/hours/minutes (`mins = secs // 60;
hrs = mins // 60; days = hrs // 24`); else print nothing. -/
def sysUptime (env : SysEnv) : List InfoLine :=
  let uptime := run_cmd_output env.uptimeOut
  if uptime ≠ [] then [InfoLine.uptimePretty uptime]
  else
    match env.procUptimeSecs with
    | some secs => [InfoLine.uptimeFallback (secs / 60 / 60 / 24) (secs / 60 / 60 % 24) (secs / 60 % 60)]
    | none => []

/-- `show_system_info()`: the lines it prints, in order, and whether an
exception escaped to the caller. The `uname`/`uptime` subprocess calls
and the `/proc/uptime` read are each wrapped in their own handler, but
`shutil.disk_usage(".")` is called bare: if it raises, the lines printed
so far stand and the exception propagates (second component `true`). -/
def show_system_info (env : SysEnv) : List InfoLine × Bool :=
  match env.disk with
  | some (total, used, free) =>
      (sysBase env ++ sysUname env ++ sysUptime env
        ++ [InfoLine.disk total used free, InfoLine.blank], false)
  | none => (sysBase env ++ sysUname env ++ sysUptime env, true)

/-! ### Surprise opener (`open_surprise`) -/

/-- The fixed URL list `SURPRISES`. -/
def SURPRISES : List (List Char) :=
  ["https://thisworddoesnotexist.com/".data,
   "https://web.archive.org/web/20200202020202/https://www.retrojunk.com/".data,
   "https://patatap.com/".data,
   "https://shadertoy.com/".data,
   "https://pointerpointer.com/".data]

/-- The observable steps `open_surprise` takes, in order. -/
inductive OpenAction where
  | printOpening (url : List Char)
  | sleep
  | runBrowserCmd (cmd url : List Char)
  | webbrowserOpen (url : List Char)
  | printFallback (url : List Char)
  | printBlank
deriving DecidableEq, Repr

/-- The process environment and host behaviour `open_surprise` sees.
`browserCmd` is `os.environ.get("BROWSER")`; `spawnRaises` is whether
`subprocess.run([browser_cmd, url], check=False)` raises (e.g. the
command does not exist); `spawnExitCode` is the spawned command's exit
status, which `check=False` makes the code ignore; `webbrowserRaises` is
whether `webbrowser.open(url)` raises. -/
structure OpenEnv where
  browserCmd : Option (List Char)
  spawnRaises : Bool
  spawnExitCode : ℤ
  webbrowserRaises : Bool

/-- `open_surprise()` with the random choice fixed to `SURPRISES[pick]`:
print the announcement, sleep, then if `BROWSER` is set (non-empty) try
`subprocess.run` and return on success; on a spawn exception, or with no
`BROWSER`, call `webbrowser.open`, printing the URL as fallback text if
that raises; every exception is caught. -/
def open_surprise (env : OpenEnv) (pick : Fin SURPRISES.length) : List OpenAction :=
  let url := SURPRISES.get pick
  let pre := [OpenAction.printOpening url, OpenAction.sleep]
  let fallback :=
    OpenAction.webbrowserOpen url ::
      (if env.webbrowserRaises then [OpenAction.printFallback url] else []) ++ [OpenAction.printBlank]
  match env.browserCmd with
  | some cmd =>
      if cmd ≠ [] then
        if env.spawnRaises then pre ++ (OpenAction.runBrowserCmd cmd url :: fallback)
        else pre ++ [OpenAction.runBrowserCmd cmd url]
      else pre ++ fallback
  | none => pre ++ fallback

/-! ### Menu loop (`main_loop`) -/

/-- The action the menu dispatches an input token to. -/
inductive MenuAction where
  | art
  | sysinfo
  | surprise
  | game
  | quit
  | unknown
deriving DecidableEq, Repr

/-- `input("\nChoose: ").strip().lower()`. -/
def readChoice (line : List Char) : List Char :=
  pyToLower (pyStrip line)

/-- The alias sets of `main_loop`'s dispatch chain, in source order. -/
def dispatch (choice : List Char) : MenuAction :=
  if choice ∈ ["1".data, "a".data, "art".data] then MenuAction.art
  else if choice ∈ ["2".data, "s".data, "sys".data] then MenuAction.sysinfo
  else if choice ∈ ["3".data, "w".data, "web".data, "surprise".data] then MenuAction.surprise
  else if choice ∈ ["4".data, "g".data, "game".data] then MenuAction.game
  else if choice ∈ ["q".data, "quit".data, "exit".data] then MenuAction.quit
  else MenuAction.unknown

/-- How the menu loop ends: `normalQuit` means a quit alias matched, the
farewell `"Goodbye."` was printed, the loop broke, and the process exits
with code 0; `inputExhausted` means stdin ran out of lines. -/
inductive LoopExit where
  | normalQuit
  | inputExhausted
deriving DecidableEq, Repr

/-- The non-secret environment of `main_loop`: `secrets k` is the secret
`random.randint(1, 100)` draws for the `k`-th game started. -/
structure MenuEnv where
  secrets : ℕ → ℤ

/-- One menu iteration per step, fuelled: read and normalize a choice,
dispatch it; `art`/`sysinfo`/`surprise` consume one acknowledgment line;
`game` runs `guess_number` on the remaining input, then consumes one
acknowledgment line; `unknown` re-loops immediately; `quit` prints the
farewell and breaks. Each iteration consumes at least one input line, so
`inputs.length + 1` fuel is never exhausted before the input is. -/
def main_loop_fuel (env : MenuEnv) : ℕ → ℕ → List (List Char) → List MenuAction × LoopExit
  | 0, _, _ => ([], LoopExit.inputExhausted)
  | _ + 1, _, [] => ([], LoopExit.inputExhausted)
  | fuel + 1, games, line :: rest =>
      match dispatch (readChoice line) with
      | MenuAction.quit => ([MenuAction.quit], LoopExit.normalQuit)
      | MenuAction.unknown =>
          let r := main_loop_fuel env fuel games rest
          (MenuAction.unknown :: r.1, r.2)
      | MenuAction.game =>
          let g := guessRun (env.secrets games) 0 rest
          match g.2.2 with
          | [] => ([MenuAction.game], LoopExit.inputExhausted)
          | _ :: rest2 =>
              let r := main_loop_fuel env fuel (games + 1) rest2
              (MenuAction.game :: r.1, r.2)
      | act =>
          match rest with
          | [] => ([act], LoopExit.inputExhausted)
          | _ :: rest2 =>
              let r := main_loop_fuel env fuel games rest2
              (act :: r.1, r.2)

/-- `main_loop()` driven by a finite list of stdin lines. -/
def main_loop (env : MenuEnv) (inputs : List (List Char)) : List MenuAction × LoopExit :=
  main_loop_fuel env (inputs.length + 1) 0 inputs

/-! ### Claims about the guessing game -/

/-- C4 counterexample: with secret 50 and the input sequence
`["25","75","60","55","51","50"]`, the fifth hint is not `Higher` —
`51 > 50`, so the code prints `Lower.` there. -/
theorem guess_trace_fifth_hint_not_higher :
    ¬ ((guessRun 50 0 ["25".data, "75".data, "60".data, "55".data, "51".data, "50".data]).1.get? 4
        = some GameEvent.higher) := by
  decide

/-- C4 (amended): with secret 50, the inputs
`["25","75","60","55","51","50"]` yield the hints Higher, Lower, Lower,
Lower, Lower, then the win event reporting the secret 50 and
attempts = 6, the game ending in the `Won` state with no input left. -/
theorem guess_trace_secret_50 :
    guessRun 50 0 ["25".data, "75".data, "60".data, "55".data, "51".data, "50".data]
      = ([GameEvent.higher, GameEvent.lower, GameEvent.lower, GameEvent.lower,
          GameEvent.lower, GameEvent.won 50 6],
         GameResult.finished GameState.won 6, []) := by
  decide

/-- C5: an input line that is not a quit token and fails integer parsing
leaves the attempt counter and the state unchanged (`AwaitingGuess`),
prints the retry instruction, and the loop carries on with the remaining
input exactly as if the bad line had not occurred (except for the retry
event). -/
theorem guess_invalid_input (line : List Char) (secret : ℤ) (attempts : ℕ)
    (hq : pyToLower (pyStrip line) ∉ QUIT_TOKENS)
    (hp : pyParseInt (pyStrip line) = none) :
    guessStep secret attempts line = (GameState.awaitingGuess, attempts, GameEvent.retry)
    ∧ ∀ rest, guessRun secret attempts (line :: rest)
        = (GameEvent.retry :: (guessRun secret attempts rest).1,
           (guessRun secret attempts rest).2.1, (guessRun secret attempts rest).2.2) := by
  have hstep : guessStep secret attempts line
      = (GameState.awaitingGuess, attempts, GameEvent.retry) := by
    simp [guessStep, hq, hp]
  refine ⟨hstep, fun rest => ?_⟩
  simp [guessRun, hstep]

/-- C5 witness: the concrete invalid line `"abc"` with secret 50 and
three attempts already made. -/
theorem guess_invalid_input_witness :
    guessStep 50 3 "abc".data = (GameState.awaitingGuess, 3, GameEvent.retry)
    ∧ guessRun 50 3 ["abc".data, "50".data]
        = (GameEvent.retry :: (guessRun 50 3 ["50".data]).1,
           (guessRun 50 3 ["50".data]).2.1, (guessRun 50 3 ["50".data]).2.2) := by
  have h := guess_invalid_input "abc".data 50 3 (by decide) (by decide)
  exact ⟨h.1, h.2 ["50".data]⟩

/-- C6: a quit token as the first input moves the game straight to
`Aborted` with zero attempts, prints only the abort acknowledgment, stops
the loop with the rest of the input unconsumed, and does all of this
without consulting the secret (the result is the same for any secret). -/
theorem guess_quit_first (line : List Char) (rest : List (List Char)) (secret secret2 : ℤ)
    (hq : pyToLower (pyStrip line) ∈ QUIT_TOKENS) :
    guessRun secret 0 (line :: rest)
      = ([GameEvent.aborted], GameResult.finished GameState.aborted 0, rest)
    ∧ guessRun secret 0 (line :: rest) = guessRun secret2 0 (line :: rest) := by
  have hstep : ∀ sec : ℤ, guessStep sec 0 line = (GameState.aborted, 0, GameEvent.aborted) := by
    intro sec
    simp [guessStep, hq]
  constructor
  · simp [guessRun, hstep]
  · simp [guessRun, hstep]

/-- C6 witness: the first prompt answered with `"q"`, two very different
secrets. -/
theorem guess_quit_first_witness :
    guessRun 50 0 ["q".data, "33".data]
      = ([GameEvent.aborted], GameResult.finished GameState.aborted 0, ["33".data])
    ∧ guessRun 50 0 ["q".data, "33".data] = guessRun 7 0 ["q".data, "33".data] :=
  guess_quit_first "q".data ["33".data] 50 7 (by decide)

/-! ### Claims about the menu loop -/

/-- C8: menu input is stripped and lowercased before dispatch, so
`"  Q  "` is handled exactly like `"q"`: the dispatcher picks the quit
branch and the loop terminates normally (farewell printed, process exit
code 0), whatever else is on stdin and whatever secrets the games would
have drawn. -/
theorem menu_quit_normalization :
    readChoice "  Q  ".data = "q".data
    ∧ (∀ (env : MenuEnv) (rest : List (List Char)),
        main_loop env ("  Q  ".data :: rest) = main_loop env ("q".data :: rest))
    ∧ (∀ (env : MenuEnv) (rest : List (List Char)),
        main_loop env ("  Q  ".data :: rest) = ([MenuAction.quit], LoopExit.normalQuit)) := by
  have hd : dispatch (readChoice "  Q  ".data) = MenuAction.quit := by decide
  have hd2 : dispatch (readChoice "q".data) = MenuAction.quit := by decide
  refine ⟨by decide, fun env rest => ?_, fun env rest => ?_⟩
  · simp [main_loop, main_loop_fuel, hd, hd2]
  · simp [main_loop, main_loop_fuel, hd]

/-! ### Claims about the surprise opener -/

/-- C7: with no `BROWSER` configured, `webbrowser.open` is invoked with
exactly the chosen URL; if it raises, the URL is printed as fallback
text and nothing propagates — the function still runs to its final
`print()`. -/
theorem open_surprise_default_mechanism (env : OpenEnv) (pick : Fin SURPRISES.length)
    (hb : env.browserCmd = none) :
    OpenAction.webbrowserOpen (SURPRISES.get pick) ∈ open_surprise env pick
    ∧ (∀ u, OpenAction.webbrowserOpen u ∈ open_surprise env pick → u = SURPRISES.get pick)
    ∧ (env.webbrowserRaises = true →
        OpenAction.printFallback (SURPRISES.get pick) ∈ open_surprise env pick)
    ∧ (env.webbrowserRaises = false →
        ∀ u, OpenAction.printFallback u ∉ open_surprise env pick)
    ∧ (open_surprise env pick).getLast? = some OpenAction.printBlank := by
  obtain ⟨bc, sr, sec, wr⟩ := env
  cases hb
  cases wr <;>
    simp [open_surprise, List.getLast?]

/-- C7 witness: no `BROWSER`, a raising `webbrowser.open`, the first URL. -/
theorem open_surprise_default_mechanism_witness :
    OpenAction.printFallback "https://thisworddoesnotexist.com/".data
      ∈ open_surprise ⟨none, false, 0, true⟩ ⟨0, by decide⟩ :=
  (open_surprise_default_mechanism ⟨none, false, 0, true⟩ ⟨0, by decide⟩ rfl).2.2.1 rfl

/-- C10: with `BROWSER` set to a non-empty command that spawns without
raising, `open_surprise` runs it on the chosen URL and returns at once:
whatever the command's exit status (`check=False` ignores it), neither
`webbrowser.open` nor the printed-URL fallback is reached. -/
theorem open_surprise_preferred_returns (env : OpenEnv) (pick : Fin SURPRISES.length)
    (cmd : List Char) (hb : env.browserCmd = some cmd) (hc : cmd ≠ [])
    (hs : env.spawnRaises = false) :
    open_surprise env pick
      = [OpenAction.printOpening (SURPRISES.get pick), OpenAction.sleep,
         OpenAction.runBrowserCmd cmd (SURPRISES.get pick)]
    ∧ (∀ u, OpenAction.webbrowserOpen u ∉ open_surprise env pick)
    ∧ (∀ u, OpenAction.printFallback u ∉ open_surprise env pick) := by
  obtain ⟨bc, sr, sec, wr⟩ := env
  cases hb
  cases hs
  simp [open_surprise, hc]

/-- C10 witness: `BROWSER=firefox`, the spawn succeeds but the command
exits with status 3; the opener still returns right after the spawn. -/
theorem open_surprise_preferred_returns_witness :
    open_surprise ⟨some "firefox".data, false, 3, true⟩ ⟨0, by decide⟩
      = [OpenAction.printOpening "https://thisworddoesnotexist.com/".data, OpenAction.sleep,
         OpenAction.runBrowserCmd "firefox".data "https://thisworddoesnotexist.com/".data] :=
  (open_surprise_preferred_returns ⟨some "firefox".data, false, 3, true⟩ ⟨0, by decide⟩
    "firefox".data rfl (by decide) rfl).1

/-! ### Claims about the system-info reporter -/

lemma sysUptime_filter_not_uptime (env : SysEnv) :
    (sysUptime env).filter (fun l => !isUptimeLine l) = [] := by
  obtain ⟨ps, pr, pm, pv, uo, upo, pus, dk⟩ := env
  by_cases hp : run_cmd_output upo = [] <;>
    rcases pus with _ | secs <;>
      simp [sysUptime, isUptimeLine, hp]

/-- C1 counterexample: a run in which every probe except
`shutil.disk_usage` succeeds, yet an exception escapes
`show_system_info`, because the disk probe is the one probe the code
does not guard. -/
theorem show_system_info_disk_failure :
    (show_system_info
        ⟨"Linux".data, "6.1.0".data, "x86_64".data, "3.11.2".data,
         some "Linux host 6.1.0 x86_64 GNU/Linux".data, some "up 2 hours".data,
         some 7200, none⟩).2 = true := by
  decide

/-- C1 (amended): the uname, uptime-utility and uptime-file probes are
each isolated — a probe's failure omits only its own line, the header,
platform and python lines always print, and the presence of each probe
line depends only on that probe's outcome — but the disk-usage probe is
unguarded: an exception escapes `show_system_info` exactly when
`shutil.disk_usage` raises (the lines already printed still stand). -/
theorem show_system_info_isolation (env : SysEnv) :
    ((show_system_info env).2 = true ↔ env.disk = none)
    ∧ InfoLine.header ∈ (show_system_info env).1
    ∧ InfoLine.platform env.platformSystem env.platformRelease env.platformMachine
        ∈ (show_system_info env).1
    ∧ InfoLine.python env.pythonVersion ∈ (show_system_info env).1
    ∧ ((∃ s, InfoLine.uname s ∈ (show_system_info env).1)
        ↔ run_cmd_output env.unameOut ≠ [])
    ∧ ((∃ s, InfoLine.uptimePretty s ∈ (show_system_info env).1)
        ↔ run_cmd_output env.uptimeOut ≠ [])
    ∧ ((∃ d h m, InfoLine.uptimeFallback d h m ∈ (show_system_info env).1)
        ↔ (run_cmd_output env.uptimeOut = [] ∧ env.procUptimeSecs ≠ none))
    ∧ ((∃ t u f, InfoLine.disk t u f ∈ (show_system_info env).1) ↔ env.disk ≠ none) := by
  obtain ⟨ps, pr, pm, pv, uo, upo, pus, dk⟩ := env
  rcases dk with _ | ⟨t, u, f⟩ <;>
    rcases pus with _ | secs <;>
      by_cases hu : run_cmd_output uo = [] <;>
        by_cases hp : run_cmd_output upo = [] <;>
          simp [show_system_info, sysBase, sysUname, sysUptime, hu, hp]

/-- C9: when `uptime -p` yields nothing, the uptime line comes from
parsing `/proc/uptime` into days, hours and minutes; when the counter
file is also unavailable the uptime line is omitted entirely; and in
either case no other line and not the exception behaviour is affected by
the uptime probes' outcomes. -/
theorem show_system_info_uptime_fallback (env : SysEnv)
    (hcmd : run_cmd_output env.uptimeOut = []) :
    (env.procUptimeSecs = none →
        (∀ s, InfoLine.uptimePretty s ∉ (show_system_info env).1)
        ∧ (∀ d h m, InfoLine.uptimeFallback d h m ∉ (show_system_info env).1))
    ∧ (∀ secs, env.procUptimeSecs = some secs →
        InfoLine.uptimeFallback (secs / 60 / 60 / 24) (secs / 60 / 60 % 24) (secs / 60 % 60)
          ∈ (show_system_info env).1)
    ∧ (∀ uo pu,
        ((show_system_info { env with uptimeOut := uo, procUptimeSecs := pu }).1.filter
            (fun l => !isUptimeLine l))
          = ((show_system_info env).1.filter (fun l => !isUptimeLine l))
        ∧ (show_system_info { env with uptimeOut := uo, procUptimeSecs := pu }).2
            = (show_system_info env).2) := by
  obtain ⟨ps, pr, pm, pv, uo0, upo, pus, dk⟩ := env
  refine ⟨fun hnone => ?_, fun secs hsecs => ?_, fun uo pu => ?_⟩
  · subst hnone
    rcases dk with _ | ⟨t, u, f⟩ <;>
      by_cases hu : run_cmd_output uo0 = [] <;>
        simp [show_system_info, sysBase, sysUname, sysUptime, hcmd, hu]
  · subst hsecs
    rcases dk with _ | ⟨t, u, f⟩ <;>
      by_cases hu : run_cmd_output uo0 = [] <;>
        simp [show_system_info, sysBase, sysUname, sysUptime, hcmd, hu]
  · have hframe : ∀ e2 : SysEnv,
        (show_system_info e2).1.filter (fun l => !isUptimeLine l)
          = (sysBase e2 ++ sysUname e2).filter (fun l => !isUptimeLine l)
            ++ ((match e2.disk with
                  | some (t, u, f) => [InfoLine.disk t u f, InfoLine.blank]
                  | none => ([] : List InfoLine)).filter (fun l => !isUptimeLine l)) := by
      intro e2
      obtain ⟨ps2, pr2, pm2, pv2, uo2, upo2, pus2, dk2⟩ := e2
      rcases dk2 with _ | ⟨t, u, f⟩ <;>
        simp [show_system_info, List.filter_append, sysUptime_filter_not_uptime]
    constructor
    · rw [hframe, hframe]
      rfl
    · rcases dk with _ | ⟨t, u, f⟩ <;> simp [show_system_info]

/-- C9 witness: the uptime utility raised, `/proc/uptime` reads 90061
whole seconds (1 day, 1 hour, 1 minute past the day), and the fallback
line appears. -/
theorem show_system_info_uptime_fallback_witness :
    InfoLine.uptimeFallback 1 1 1
      ∈ (show_system_info
          ⟨"Linux".data, "6.1.0".data, "x86_64".data, "3.11.2".data,
           some "Linux host".data, none, some 90061,
           some (1073741824, 536870912, 536870912)⟩).1 :=
  (show_system_info_uptime_fallback
    ⟨"Linux".data, "6.1.0".data, "x86_64".data, "3.11.2".data,
     some "Linux host".data, none, some 90061,
     some (1073741824, 536870912, 536870912)⟩ rfl).2.1 90061 rfl

/-! ### Claims about the gradient banner -/

/-- C2 counterexample: for the one-character text `"A"` with black-to-white
endpoints, the last character's color is the start color, not the end
color — the claim's "last character exactly the end color" fails on
single-character texts. -/
theorem gradient_single_char_not_end_color :
    (gradColors ['A'] ⟨0, 0, 0⟩ ⟨255, 255, 255⟩).getLast? = some ⟨0, 0, 0⟩
    ∧ ¬ ((gradColors ['A'] ⟨0, 0, 0⟩ ⟨255, 255, 255⟩).getLast? = some ⟨255, 255, 255⟩) := by
  have h : gradColors ['A'] ⟨0, 0, 0⟩ ⟨255, 255, 255⟩ = [⟨0, 0, 0⟩] := by
    have hr : List.range 1 = [0] := rfl
    simp [gradColors, hr, gradColor_zero]
  rw [h]
  refine ⟨rfl, ?_⟩
  simp

/-- C2 (amended): for every text of length at least 2 and endpoint colors
with channels in 0..255, the first character gets exactly the start
color, the last character exactly the end color, and each channel is
non-decreasing across positions when its start value is below its end
value and non-increasing when it is above. (For a single-character text
the sole character instead gets the start color.) -/
theorem gradient_endpoints_monotone (text : List Char) (s e : RGB)
    (hlen : 2 ≤ text.length) (hs : s.inRange) (he : e.inRange) :
    (∀ i, i < text.length →
        (gradColors text s e)[i]? = some (gradColor s e i (gradDivisor text)))
    ∧ (gradColors text s e)[0]? = some s
    ∧ (gradColors text s e)[text.length - 1]? = some e
    ∧ (∀ i j, i ≤ j → j < text.length →
        ((s.r < e.r →
            (gradColor s e i (gradDivisor text)).r ≤ (gradColor s e j (gradDivisor text)).r)
          ∧ (e.r < s.r →
            (gradColor s e j (gradDivisor text)).r ≤ (gradColor s e i (gradDivisor text)).r))
        ∧ ((s.g < e.g →
            (gradColor s e i (gradDivisor text)).g ≤ (gradColor s e j (gradDivisor text)).g)
          ∧ (e.g < s.g →
            (gradColor s e j (gradDivisor text)).g ≤ (gradColor s e i (gradDivisor text)).g))
        ∧ ((s.b < e.b →
            (gradColor s e i (gradDivisor text)).b ≤ (gradColor s e j (gradDivisor text)).b)
          ∧ (e.b < s.b →
            (gradColor s e j (gradDivisor text)).b ≤ (gradColor s e i (gradDivisor text)).b))) := by
  obtain ⟨hsr0, hsr1, hsg0, hsg1, hsb0, hsb1⟩ := hs
  obtain ⟨her0, her1, heg0, heg1, heb0, heb1⟩ := he
  have hpos : 0 < text.length := by omega
  have hn : gradDivisor text = text.length - 1 := by
    unfold gradDivisor
    omega
  have hn' : 0 < gradDivisor text := by omega
  have hget : ∀ i, i < text.length →
      (gradColors text s e)[i]? = some (gradColor s e i (gradDivisor text)) := by
    intro i hi
    unfold gradColors
    rw [List.getElem?_map, List.getElem?_range hi]
    rfl
  refine ⟨hget, ?_, ?_, ?_⟩
  · rw [hget 0 hpos, gradColor_zero]
  · have hl : text.length - 1 < text.length := by omega
    rw [hget _ hl, hn, gradColor_self _ _ _ (by omega)]
  · intro i j hij hj
    have hjn : j ≤ gradDivisor text := by omega
    exact
      ⟨⟨fun h => (gradChannel_mono s.r e.r hsr0 her0 _ hn' i j hij hjn).1 h,
        fun h => (gradChannel_mono s.r e.r hsr0 her0 _ hn' i j hij hjn).2 h⟩,
       ⟨fun h => (gradChannel_mono s.g e.g hsg0 heg0 _ hn' i j hij hjn).1 h,
        fun h => (gradChannel_mono s.g e.g hsg0 heg0 _ hn' i j hij hjn).2 h⟩,
       ⟨fun h => (gradChannel_mono s.b e.b hsb0 heb0 _ hn' i j hij hjn).1 h,
        fun h => (gradChannel_mono s.b e.b hsb0 heb0 _ hn' i j hij hjn).2 h⟩⟩

/-- C2 witness: a three-character text from black to white; the first
position carries the start color and the last position the end color. -/
theorem gradient_endpoints_monotone_witness :
    (gradColors "abc".data ⟨0, 0, 0⟩ ⟨255, 255, 255⟩)[0]? = some ⟨0, 0, 0⟩
    ∧ (gradColors "abc".data ⟨0, 0, 0⟩ ⟨255, 255, 255⟩)[2]? = some ⟨255, 255, 255⟩ := by
  have h := gradient_endpoints_monotone "abc".data ⟨0, 0, 0⟩ ⟨255, 255, 255⟩ (by decide)
    ⟨by decide, by decide, by decide, by decide, by decide, by decide⟩
    ⟨by decide, by decide, by decide, by decide, by decide, by decide⟩
  exact ⟨h.2.1, h.2.2.1⟩

/-- C3: for a single-character text the interpolation divisor is taken
as 1 — in particular it is positive, so no division by zero occurs — and
the sole character is rendered in exactly the start color, followed by
the reset sequence. -/
theorem gradient_single_char_start_color (c : Char) (s e : RGB) :
    gradDivisor [c] = 1
    ∧ 0 < gradDivisor [c]
    ∧ gradColors [c] s e = [s]
    ∧ gradient_text [c] s e = String.join [fg_rgb s.r s.g s.b ++ String.singleton c, RESET] := by
  refine ⟨rfl, Nat.lt_of_lt_of_le Nat.zero_lt_one (le_max_left _ _), ?_, ?_⟩
  · have hr : List.range 1 = [0] := rfl
    simp [gradColors, hr, gradColor_zero]
  · show String.join
        [fg_rgb (gradColor s e 0 (gradDivisor [c])).r (gradColor s e 0 (gradDivisor [c])).g
            (gradColor s e 0 (gradDivisor [c])).b ++ String.singleton c, RESET]
      = String.join [fg_rgb s.r s.g s.b ++ String.singleton c, RESET]
    rw [gradColor_zero]

end Gurt

